import Mathlib

/-!
Verification development for the MGNREGA district-performance service
(src/backend/server.py). The backing MongoDB store is modelled as an
explicit `Store` value threaded through the read endpoints; the seeder's
calls to `random.randint` / `random.uniform` are modelled by an explicit
`Draws` argument (one bundle of sampled values per district per month),
with `Draws.Valid` recording exactly the documented sampling ranges.
Python floats are modelled as exact rationals; `int(...)` truncation is
`pyInt` and `round(x, 2)` is `round2` (round half to even at two decimal
places, the idealisation of Python's banker rounding). The `id` (uuid4)
and `updated_at` (wall-clock timestamp) fields of a performance document
are omitted: they are fresh opaque values that no endpoint inspects.
-/

set_option maxRecDepth 40000

/-- Model of the `State` pydantic model (server.py lines 67-71). -/
structure StateRec where
  state_code : String
  state_name : String
  state_name_hi : String
deriving DecidableEq

/-- Model of the `District` pydantic model (server.py lines 74-80). -/
structure DistrictRec where
  district_code : String
  district_name : String
  district_name_hi : String
  state_code : String
  state_name : String
deriving DecidableEq

/-- Model of the `DistrictPerformance` pydantic model (server.py lines 30-64),
without the opaque `id` and `updated_at` fields. -/
structure PerfRec where
  state_code : String
  state_name : String
  district_code : String
  district_name : String
  month : ℤ
  year : ℤ
  total_job_cards : ℤ
  active_job_cards : ℤ
  total_workers : ℤ
  active_workers : ℤ
  person_days_generated : ℤ
  average_days_per_household : ℚ
  women_person_days : ℤ
  sc_person_days : ℤ
  st_person_days : ℤ
  total_budget_allocated : ℚ
  total_expenditure : ℚ
  wage_expenditure : ℚ
  material_expenditure : ℚ
  average_wage_per_day : ℚ
  total_works : ℤ
  completed_works : ℤ
  ongoing_works : ℤ
deriving DecidableEq

/-- Constructor helper for the fixed state catalog. -/
def mkState (state_code state_name state_name_hi : String) : StateRec :=
  ⟨state_code, state_name, state_name_hi⟩

/-- Constructor helper for the fixed district catalog. -/
def mkDistrict (district_code district_name district_name_hi state_code state_name : String) : DistrictRec :=
  ⟨district_code, district_name, district_name_hi, state_code, state_name⟩

/-- The fixed state catalog of `initialize_sample_data` (server.py lines 240-269). -/
def statesCatalog : List StateRec := [
  mkState "AP" "Andhra Pradesh" "आंध्र प्रदेश",
  mkState "AR" "Arunachal Pradesh" "अरुणाचल प्रदेश",
  mkState "AS" "Assam" "असम",
  mkState "BR" "Bihar" "बिहार",
  mkState "CT" "Chhattisgarh" "छत्तीसगढ़",
  mkState "GA" "Goa" "गोवा",
  mkState "GJ" "Gujarat" "गुजरात",
  mkState "HR" "Haryana" "हरियाणा",
  mkState "HP" "Himachal Pradesh" "हिमाचल प्रदेश",
  mkState "JH" "Jharkhand" "झारखंड",
  mkState "KA" "Karnataka" "कर्नाटक",
  mkState "KL" "Kerala" "केरल",
  mkState "MP" "Madhya Pradesh" "मध्य प्रदेश",
  mkState "MH" "Maharashtra" "महाराष्ट्र",
  mkState "MN" "Manipur" "मणिपुर",
  mkState "ML" "Meghalaya" "मेघालय",
  mkState "MZ" "Mizoram" "मिजोरम",
  mkState "NL" "Nagaland" "नागालैंड",
  mkState "OR" "Odisha" "ओडिशा",
  mkState "PB" "Punjab" "पंजाब",
  mkState "RJ" "Rajasthan" "राजस्थान",
  mkState "SK" "Sikkim" "सिक्किम",
  mkState "TN" "Tamil Nadu" "तमिलनाडु",
  mkState "TG" "Telangana" "तेलंगाना",
  mkState "TR" "Tripura" "त्रिपुरा",
  mkState "UP" "Uttar Pradesh" "उत्तर प्रदेश",
  mkState "UT" "Uttarakhand" "उत्तराखंड",
  mkState "WB" "West Bengal" "पश्चिम बंगाल"
]

/-- The fixed district catalog of `initialize_sample_data` (server.py lines 272-434). -/
def districtsCatalog : List DistrictRec := [
  mkDistrict "AP001" "Visakhapatnam" "विशाखापत्तनम" "AP" "Andhra Pradesh",
  mkDistrict "AP002" "Vijayawada" "विजयवाड़ा" "AP" "Andhra Pradesh",
  mkDistrict "AP003" "Guntur" "गुंटूर" "AP" "Andhra Pradesh",
  mkDistrict "AP004" "Nellore" "नेल्लोर" "AP" "Andhra Pradesh",
  mkDistrict "AP005" "Kurnool" "कुरनूल" "AP" "Andhra Pradesh",
  mkDistrict "AR001" "Itanagar" "ईटानगर" "AR" "Arunachal Pradesh",
  mkDistrict "AR002" "Tawang" "तवांग" "AR" "Arunachal Pradesh",
  mkDistrict "AR003" "Changlang" "चांगलांग" "AR" "Arunachal Pradesh",
  mkDistrict "AS001" "Guwahati" "गुवाहाटी" "AS" "Assam",
  mkDistrict "AS002" "Dibrugarh" "डिब्रूगढ़" "AS" "Assam",
  mkDistrict "AS003" "Silchar" "सिलचर" "AS" "Assam",
  mkDistrict "AS004" "Jorhat" "जोरहाट" "AS" "Assam",
  mkDistrict "BR001" "Patna" "पटना" "BR" "Bihar",
  mkDistrict "BR002" "Gaya" "गया" "BR" "Bihar",
  mkDistrict "BR003" "Muzaffarpur" "मुजफ्फरपुर" "BR" "Bihar",
  mkDistrict "BR004" "Bhagalpur" "भागलपुर" "BR" "Bihar",
  mkDistrict "BR005" "Darbhanga" "दरभंगा" "BR" "Bihar",
  mkDistrict "CT001" "Raipur" "रायपुर" "CT" "Chhattisgarh",
  mkDistrict "CT002" "Bilaspur" "बिलासपुर" "CT" "Chhattisgarh",
  mkDistrict "CT003" "Durg" "दुर्ग" "CT" "Chhattisgarh",
  mkDistrict "CT004" "Korba" "कोरबा" "CT" "Chhattisgarh",
  mkDistrict "GA001" "North Goa" "उत्तर गोवा" "GA" "Goa",
  mkDistrict "GA002" "South Goa" "दक्षिण गोवा" "GA" "Goa",
  mkDistrict "GJ001" "Ahmedabad" "अहमदाबाद" "GJ" "Gujarat",
  mkDistrict "GJ002" "Surat" "सूरत" "GJ" "Gujarat",
  mkDistrict "GJ003" "Vadodara" "वडोदरा" "GJ" "Gujarat",
  mkDistrict "GJ004" "Rajkot" "राजकोट" "GJ" "Gujarat",
  mkDistrict "GJ005" "Bhavnagar" "भावनगर" "GJ" "Gujarat",
  mkDistrict "HR001" "Gurugram" "गुरुग्राम" "HR" "Haryana",
  mkDistrict "HR002" "Faridabad" "फरीदाबाद" "HR" "Haryana",
  mkDistrict "HR003" "Panipat" "पानीपत" "HR" "Haryana",
  mkDistrict "HR004" "Ambala" "अंबाला" "HR" "Haryana",
  mkDistrict "HP001" "Shimla" "शिमला" "HP" "Himachal Pradesh",
  mkDistrict "HP002" "Kangra" "कांगड़ा" "HP" "Himachal Pradesh",
  mkDistrict "HP003" "Mandi" "मंडी" "HP" "Himachal Pradesh",
  mkDistrict "JH001" "Ranchi" "रांची" "JH" "Jharkhand",
  mkDistrict "JH002" "Jamshedpur" "जमशेदपुर" "JH" "Jharkhand",
  mkDistrict "JH003" "Dhanbad" "धनबाद" "JH" "Jharkhand",
  mkDistrict "JH004" "Bokaro" "बोकारो" "JH" "Jharkhand",
  mkDistrict "KA001" "Bangalore" "बैंगलोर" "KA" "Karnataka",
  mkDistrict "KA002" "Mysore" "मैसूर" "KA" "Karnataka",
  mkDistrict "KA003" "Mangalore" "मंगलौर" "KA" "Karnataka",
  mkDistrict "KA004" "Hubli" "हुबली" "KA" "Karnataka",
  mkDistrict "KL001" "Thiruvananthapuram" "तिरुवनंतपुरम" "KL" "Kerala",
  mkDistrict "KL002" "Kochi" "कोच्चि" "KL" "Kerala",
  mkDistrict "KL003" "Kozhikode" "कोझिकोड" "KL" "Kerala",
  mkDistrict "KL004" "Kollam" "कोल्लम" "KL" "Kerala",
  mkDistrict "MP001" "Bhopal" "भोपाल" "MP" "Madhya Pradesh",
  mkDistrict "MP002" "Indore" "इंदौर" "MP" "Madhya Pradesh",
  mkDistrict "MP003" "Jabalpur" "जबलपुर" "MP" "Madhya Pradesh",
  mkDistrict "MP004" "Gwalior" "ग्वालियर" "MP" "Madhya Pradesh",
  mkDistrict "MP005" "Ujjain" "उज्जैन" "MP" "Madhya Pradesh",
  mkDistrict "MH001" "Mumbai" "मुंबई" "MH" "Maharashtra",
  mkDistrict "MH002" "Pune" "पुणे" "MH" "Maharashtra",
  mkDistrict "MH003" "Nagpur" "नागपुर" "MH" "Maharashtra",
  mkDistrict "MH004" "Nashik" "नासिक" "MH" "Maharashtra",
  mkDistrict "MH005" "Aurangabad" "औरंगाबाद" "MH" "Maharashtra",
  mkDistrict "MN001" "Imphal West" "इंफाल पश्चिम" "MN" "Manipur",
  mkDistrict "MN002" "Imphal East" "इंफाल पूर्व" "MN" "Manipur",
  mkDistrict "MN003" "Thoubal" "थौबल" "MN" "Manipur",
  mkDistrict "ML001" "Shillong" "शिलांग" "ML" "Meghalaya",
  mkDistrict "ML002" "Tura" "तुरा" "ML" "Meghalaya",
  mkDistrict "MZ001" "Aizawl" "आइजोल" "MZ" "Mizoram",
  mkDistrict "MZ002" "Lunglei" "लुंगलेई" "MZ" "Mizoram",
  mkDistrict "NL001" "Kohima" "कोहिमा" "NL" "Nagaland",
  mkDistrict "NL002" "Dimapur" "दीमापुर" "NL" "Nagaland",
  mkDistrict "OR001" "Bhubaneswar" "भुवनेश्वर" "OR" "Odisha",
  mkDistrict "OR002" "Cuttack" "कटक" "OR" "Odisha",
  mkDistrict "OR003" "Rourkela" "राउरकेला" "OR" "Odisha",
  mkDistrict "OR004" "Puri" "पुरी" "OR" "Odisha",
  mkDistrict "PB001" "Ludhiana" "लुधियाना" "PB" "Punjab",
  mkDistrict "PB002" "Amritsar" "अमृतसर" "PB" "Punjab",
  mkDistrict "PB003" "Jalandhar" "जालंधर" "PB" "Punjab",
  mkDistrict "PB004" "Patiala" "पटियाला" "PB" "Punjab",
  mkDistrict "RJ001" "Jaipur" "जयपुर" "RJ" "Rajasthan",
  mkDistrict "RJ002" "Jodhpur" "जोधपुर" "RJ" "Rajasthan",
  mkDistrict "RJ003" "Udaipur" "उदयपुर" "RJ" "Rajasthan",
  mkDistrict "RJ004" "Kota" "कोटा" "RJ" "Rajasthan",
  mkDistrict "RJ005" "Ajmer" "अजमेर" "RJ" "Rajasthan",
  mkDistrict "SK001" "Gangtok" "गंगटोक" "SK" "Sikkim",
  mkDistrict "SK002" "Namchi" "नामची" "SK" "Sikkim",
  mkDistrict "TN001" "Chennai" "चेन्नई" "TN" "Tamil Nadu",
  mkDistrict "TN002" "Coimbatore" "कोयंबटूर" "TN" "Tamil Nadu",
  mkDistrict "TN003" "Madurai" "मदुरै" "TN" "Tamil Nadu",
  mkDistrict "TN004" "Trichy" "तिरुचि" "TN" "Tamil Nadu",
  mkDistrict "TN005" "Salem" "सेलम" "TN" "Tamil Nadu",
  mkDistrict "TG001" "Hyderabad" "हैदराबाद" "TG" "Telangana",
  mkDistrict "TG002" "Warangal" "वारंगल" "TG" "Telangana",
  mkDistrict "TG003" "Nizamabad" "निज़ामाबाद" "TG" "Telangana",
  mkDistrict "TG004" "Khammam" "खम्मम" "TG" "Telangana",
  mkDistrict "TR001" "Agartala" "अगरतला" "TR" "Tripura",
  mkDistrict "TR002" "Udaipur" "उदयपुर" "TR" "Tripura",
  mkDistrict "UP001" "Lucknow" "लखनऊ" "UP" "Uttar Pradesh",
  mkDistrict "UP002" "Kanpur" "कानपुर" "UP" "Uttar Pradesh",
  mkDistrict "UP003" "Varanasi" "वाराणसी" "UP" "Uttar Pradesh",
  mkDistrict "UP004" "Prayagraj" "प्रयागराज" "UP" "Uttar Pradesh",
  mkDistrict "UP005" "Agra" "आगरा" "UP" "Uttar Pradesh",
  mkDistrict "UP006" "Meerut" "मेरठ" "UP" "Uttar Pradesh",
  mkDistrict "UP007" "Noida" "नोएडा" "UP" "Uttar Pradesh",
  mkDistrict "UT001" "Dehradun" "देहरादून" "UT" "Uttarakhand",
  mkDistrict "UT002" "Haridwar" "हरिद्वार" "UT" "Uttarakhand",
  mkDistrict "UT003" "Nainital" "नैनीताल" "UT" "Uttarakhand",
  mkDistrict "WB001" "Kolkata" "कोलकाता" "WB" "West Bengal",
  mkDistrict "WB002" "Darjeeling" "दार्जिलिंग" "WB" "West Bengal",
  mkDistrict "WB003" "Howrah" "हावड़ा" "WB" "West Bengal",
  mkDistrict "WB004" "Siliguri" "सिलीगुड़ी" "WB" "West Bengal"
]

/-- The static translation table (server.py lines 89-174), as an association
list in definition order. -/
def TRANSLATIONS : List (String × List (String × String)) := [
  ("app_title", [("en", "MGNREGA District Dashboard"), ("hi", "मनरेगा जिला डैशबोर्ड"), ("ta", "MGNREGA மாவட்ட டாஷ்போர்டு"), ("te", "MGNREGA జిల్లా డాష్‌బోర్డ్"), ("bn", "MGNREGA জেলা ড্যাশবোর্ড")]),
  ("select_state", [("en", "Select Your State"), ("hi", "अपना राज्य चुनें"), ("ta", "உங்கள் மாநிலத்தைத் தேர்ந்தெடுக்கவும்"), ("te", "మీ రాష్ట్రాన్ని ఎంచుకోండి"), ("bn", "আপনার রাজ্য নির্বাচন করুন")]),
  ("select_district", [("en", "Select Your District"), ("hi", "अपना जिला चुनें"), ("ta", "உங்கள் மாவட்டத்தைத் தேர்ந்தெடுக்கவும்"), ("te", "మీ జిల్లాను ఎంచుకోండి"), ("bn", "আপনার জেলা নির্বাচন করুন")]),
  ("performance_summary", [("en", "Performance Summary"), ("hi", "प्रदर्शन सारांश"), ("ta", "செயல்திறன் சுருக்கம்"), ("te", "పనితీరు సారాంశం"), ("bn", "কর্মক্ষমতা সারসংক্ষেপ")]),
  ("active_workers", [("en", "Active Workers"), ("hi", "सक्रिय कामगार"), ("ta", "செயலில் உள்ள தொழிலாளர்கள்"), ("te", "క్రియాశీల కార్మికులు"), ("bn", "সক্রিয় শ্রমিক")]),
  ("person_days", [("en", "Person Days Generated"), ("hi", "व्यक्ति-दिवस उत्पन्न"), ("ta", "நபர் நாட்கள் உருவாக்கப்பட்டது"), ("te", "వ్యక్తి రోజులు సృష్టించబడ్డాయి"), ("bn", "ব্যক্তি দিন তৈরি")]),
  ("budget_utilization", [("en", "Budget Used"), ("hi", "बजट उपयोग"), ("ta", "பட்ஜெட் பயன்படுத்தப்பட்டது"), ("te", "బడ్జెట్ ఉపయోగించబడింది"), ("bn", "বাজেট ব্যবহৃত")]),
  ("works_completed", [("en", "Works Completed"), ("hi", "पूर्ण कार्य"), ("ta", "முடிக்கப்பட்ட வேலைகள்"), ("te", "పూర్తయిన పనులు"), ("bn", "সম্পন্ন কাজ")]),
  ("avg_wage", [("en", "Average Daily Wage"), ("hi", "औसत दैनिक मजदूरी"), ("ta", "சராசரி தினசரி ஊதியம்"), ("te", "సగటు రోజువారీ వేతనం"), ("bn", "গড় দৈনিক মজুরি")]),
  ("women_participation", [("en", "Women's Participation"), ("hi", "महिला भागीदारी"), ("ta", "பெண்கள் பங்கேற்பு"), ("te", "మహిళల భాగస్వామ్యం"), ("bn", "মহিলা অংশগ্রহণ")]),
  ("view_details", [("en", "View Details"), ("hi", "विवरण देखें"), ("ta", "விவரங்களைப் பார்க்கவும்"), ("te", "వివరాలను చూడండి"), ("bn", "বিস্তারিত দেখুন")]),
  ("no_data", [("en", "No data available for this period"), ("hi", "इस अवधि के लिए कोई डेटा उपलब्ध नहीं है"), ("ta", "இந்த காலத்திற்கு தரவு கிடைக்கவில்லை"), ("te", "ఈ కాలానికి డేటా అందుబాటులో లేదు"), ("bn", "এই সময়ের জন্য কোন ডেটা উপলব্ধ নেই")])
]

/-- Python `int(q)` on a rational: truncation toward zero. -/
def pyInt (q : ℚ) : ℤ := if 0 ≤ q then ⌊q⌋ else -(⌊-q⌋)

/-- Round a rational to the nearest integer, halves to the even neighbour
(the idealisation of Python's `round`). -/
def roundHalfEven (q : ℚ) : ℤ :=
  let f : ℤ := ⌊q⌋
  let r : ℚ := q - (f : ℚ)
  if r < 1 / 2 then f
  else if 1 / 2 < r then f + 1
  else if f % 2 = 0 then f else f + 1

/-- Python `round(q, 2)`: two decimal places, half to even. -/
def round2 (q : ℚ) : ℚ := ((roundHalfEven (q * 100) : ℤ) : ℚ) / 100

/-- One bundle of the random draws made for a single performance document
(server.py lines 459-492), in source order. `randint` draws are integers,
`uniform` draws are rationals. -/
structure Draws where
  total_job_cards : ℤ
  activeFrac : ℚ
  workerFrac : ℚ
  activeWorkerFrac : ℚ
  person_days : ℤ
  total_budget : ℚ
  spendFrac : ℚ
  total_works : ℤ
  completedFrac : ℚ
  womenFrac : ℚ
  scFrac : ℚ
  stFrac : ℚ
  avgWage : ℚ
deriving DecidableEq

/-- The sampling ranges guaranteed by `random.randint` / `random.uniform`
at server.py lines 459-492 (both endpoints inclusive). -/
def Draws.Valid (d : Draws) : Prop :=
  20000 ≤ d.total_job_cards ∧ d.total_job_cards ≤ 100000 ∧
  0.6 ≤ d.activeFrac ∧ d.activeFrac ≤ 0.8 ∧
  1.5 ≤ d.workerFrac ∧ d.workerFrac ≤ 2.5 ∧
  1.5 ≤ d.activeWorkerFrac ∧ d.activeWorkerFrac ≤ 2.5 ∧
  100000 ≤ d.person_days ∧ d.person_days ≤ 500000 ∧
  5000000 ≤ d.total_budget ∧ d.total_budget ≤ 50000000 ∧
  0.7 ≤ d.spendFrac ∧ d.spendFrac ≤ 0.95 ∧
  200 ≤ d.total_works ∧ d.total_works ≤ 1000 ∧
  0.6 ≤ d.completedFrac ∧ d.completedFrac ≤ 0.8 ∧
  0.45 ≤ d.womenFrac ∧ d.womenFrac ≤ 0.55 ∧
  0.15 ≤ d.scFrac ∧ d.scFrac ≤ 0.25 ∧
  0.10 ≤ d.stFrac ∧ d.stFrac ≤ 0.20 ∧
  200 ≤ d.avgWage ∧ d.avgWage ≤ 350

instance (d : Draws) : Decidable d.Valid := by
  unfold Draws.Valid
  exact inferInstance

/-- The month/year roll-over of server.py lines 451-456:
`month = current_month - month_offset; if month <= 0: month += 12; year -= 1`. -/
def monthYear (current_year current_month : ℤ) (month_offset : ℕ) : ℤ × ℤ :=
  let month := current_month - (month_offset : ℤ)
  let year := current_year
  if month ≤ 0 then (month + 12, year - 1) else (month, year)

/-- One generated performance document (server.py lines 459-497), with the
random draws supplied explicitly. -/
def makePerf (district : DistrictRec) (month year : ℤ) (d : Draws) : PerfRec :=
  let total_job_cards := d.total_job_cards
  let active_job_cards := pyInt ((total_job_cards : ℚ) * d.activeFrac)
  let total_workers := pyInt ((total_job_cards : ℚ) * d.workerFrac)
  let active_workers := pyInt ((active_job_cards : ℚ) * d.activeWorkerFrac)
  let person_days := d.person_days
  let total_budget := d.total_budget
  let expenditure := total_budget * d.spendFrac
  let total_works := d.total_works
  let completed := pyInt ((total_works : ℚ) * d.completedFrac)
  { state_code := district.state_code
    state_name := district.state_name
    district_code := district.district_code
    district_name := district.district_name
    month := month
    year := year
    total_job_cards := total_job_cards
    active_job_cards := active_job_cards
    total_workers := total_workers
    active_workers := active_workers
    person_days_generated := person_days
    average_days_per_household := round2 ((person_days : ℚ) / (active_job_cards : ℚ))
    women_person_days := pyInt ((person_days : ℚ) * d.womenFrac)
    sc_person_days := pyInt ((person_days : ℚ) * d.scFrac)
    st_person_days := pyInt ((person_days : ℚ) * d.stFrac)
    total_budget_allocated := round2 total_budget
    total_expenditure := round2 expenditure
    wage_expenditure := round2 (expenditure * 0.6)
    material_expenditure := round2 (expenditure * 0.4)
    average_wage_per_day := round2 d.avgWage
    total_works := total_works
    completed_works := completed
    ongoing_works := total_works - completed }

/-- The 12 documents generated for one district by the inner loop at
server.py lines 450-498, anchored at `current_year = 2025`,
`current_month = 10`. -/
def districtPerfs (district : DistrictRec) (dr : ℕ → Draws) : List PerfRec :=
  (List.range 12).map (fun month_offset =>
    let my := monthYear 2025 10 month_offset
    makePerf district my.1 my.2 (dr month_offset))

/-- The three MongoDB collections used by the service. -/
structure Store where
  states : List StateRec
  districts : List DistrictRec
  performances : List PerfRec
deriving DecidableEq

def emptyStore : Store := { states := [], districts := [], performances := [] }

/-- Model of `initialize_sample_data` (server.py lines 236-501): clear the
`states` and `districts` collections, insert the fixed catalogs, clear the
`performances` collection, then bulk-insert the generated documents (the
final insert is guarded by `if performances:`). The random draws are
supplied per district and month offset. -/
def init_sample_data (draws : DistrictRec → ℕ → Draws) (s : Store) : Store :=
  let s1 : Store := { s with states := [] }
  let s2 : Store := { s1 with districts := [] }
  let s3 : Store := { s2 with states := s2.states ++ statesCatalog }
  let s4 : Store := { s3 with districts := s3.districts ++ districtsCatalog }
  let s5 : Store := { s4 with performances := [] }
  let perfs : List PerfRec := (districtsCatalog.map (fun d => districtPerfs d (draws d))).flatten
  if perfs.isEmpty then s5 else { s5 with performances := s5.performances ++ perfs }

/-- Model of `GET /api/states` (server.py lines 183-191): read all states
(`to_list(100)` caps the read at 100 documents); when none are stored, run
the seeder first and re-read. -/
def get_states (draws : DistrictRec → ℕ → Draws) (s : Store) : Store × List StateRec :=
  let states := s.states.take 100
  if states.isEmpty then
    let s2 := init_sample_data draws s
    (s2, s2.states.take 100)
  else (s, states)

/-- Model of `GET /api/districts/{state_code}` (server.py lines 194-200):
filter by state code, cap at 100 documents, 404 when empty. -/
def get_districts (s : Store) (state_code : String) : Store × Except String (List DistrictRec) :=
  let districts := (s.districts.filter (fun d => d.state_code == state_code)).take 100
  if districts.isEmpty then (s, Except.error "No districts found for this state")
  else (s, Except.ok districts)

/-- Mongo sort order actually requested at server.py line 209: the chained
`.sort("year", -1).sort("month", -1)` calls do not compose — in PyMongo a
second `.sort` call replaces the first cursor sort specification — so the
cursor is sorted by `month` descending only. Ties (impossible among the
seeded documents of one district) keep store order via a stable sort. -/
def byMonthDesc (a b : PerfRec) : Prop := b.month ≤ a.month

instance : DecidableRel byMonthDesc :=
  fun a b => inferInstanceAs (Decidable (b.month ≤ a.month))

/-- Model of `GET /api/performance/{district_code}` (server.py lines
203-218): filter by district code, apply the (month-only, see
`byMonthDesc`) descending sort, truncate to `limit` (`.limit(limit)` and
`.to_list(limit)` both cap at `limit`; their composition is one `take`),
404 when the truncated result is empty. -/
def get_district_performance (s : Store) (district_code : String) (limit : ℕ) :
    Store × Except String (List PerfRec) :=
  let performances :=
    (((s.performances.filter (fun p => p.district_code == district_code)).insertionSort
        byMonthDesc).take limit)
  if performances.isEmpty then (s, Except.error "No performance data found")
  else (s, Except.ok performances)

/-- The declared default of the `limit` query parameter (server.py line 204). -/
def default_limit : ℕ := 12

/-- The `/api/performance/{district_code}` endpoint called without an
explicit `limit`. -/
def get_district_performance_default (s : Store) (district_code : String) :
    Store × Except String (List PerfRec) :=
  get_district_performance s district_code default_limit

/-- Python `translations.get(language, translations["en"])` on one entry:
lookup of a key in a small string-keyed dict. -/
def dictGet (t : List (String × String)) (k : String) : Option String :=
  (t.find? (fun e => e.1 == k)).map Prod.snd

/-- The `translations["en"]` fallback read. Every entry of `TRANSLATIONS`
carries an `"en"` key; the `""` default models the (unreachable) KeyError. -/
def englishText (t : List (String × String)) : String := (dictGet t "en").getD ""

/-- Model of `GET /api/translations/{language}` (server.py lines 227-233):
for every key of the static table, the text for `language` when present,
otherwise the English text. -/
def get_language_translations (language : String) : List (String × String) :=
  TRANSLATIONS.map (fun kv => (kv.1, (dictGet kv.2 language).getD (englishText kv.2)))

/-- Observable shape of a performance response: the `(year, month)` pairs
in response order (`none` for a 404). -/
def perfYM (e : Except String (List PerfRec)) : Option (List (ℤ × ℤ)) :=
  e.toOption.map (List.map (fun p => (p.year, p.month)))

/-- Strict lexicographic year-then-month descending order of consecutive
entries, as the spec requires of a performance response. -/
def ymDescB : List (ℤ × ℤ) → Bool
  | [] => true
  | [_] => true
  | a :: b :: t =>
      (decide (b.1 < a.1) || (decide (b.1 = a.1) && decide (b.2 < a.2))) && ymDescB (b :: t)

/-- Propositional form of `ymDescB`. -/
def ymDesc (l : List (ℤ × ℤ)) : Prop := ymDescB l = true

instance : DecidablePred ymDesc := fun l => inferInstanceAs (Decidable (ymDescB l = true))

/-- One fixed, in-range outcome of the random sampling, used to instantiate
the draw-generic theorems at a concrete input. -/
def d0 : Draws :=
  { total_job_cards := 20000
    activeFrac := 0.6
    workerFrac := 2
    activeWorkerFrac := 2
    person_days := 100000
    total_budget := 5000000
    spendFrac := 0.7
    total_works := 200
    completedFrac := 0.6
    womenFrac := 0.5
    scFrac := 0.2
    stFrac := 0.1
    avgWage := 200 }

/-- A constant draw assignment (every district, every month gets `d0`). -/
def cdraws : DistrictRec → ℕ → Draws := fun _ _ => d0

/-- The first catalog district, used as a concrete probe. -/
def ap001 : DistrictRec :=
  { district_code := "AP001", district_name := "Visakhapatnam",
    district_name_hi := "विशाखापत्तनम", state_code := "AP",
    state_name := "Andhra Pradesh" }

lemma makePerf_district_code (district : DistrictRec) (month year : ℤ) (d : Draws) :
    (makePerf district month year d).district_code = district.district_code := rfl

lemma makePerf_month (district : DistrictRec) (month year : ℤ) (d : Draws) :
    (makePerf district month year d).month = month := rfl

lemma makePerf_year (district : DistrictRec) (month year : ℤ) (d : Draws) :
    (makePerf district month year d).year = year := rfl

lemma makePerf_total_works (district : DistrictRec) (month year : ℤ) (d : Draws) :
    (makePerf district month year d).total_works = d.total_works := rfl

lemma makePerf_completed_works (district : DistrictRec) (month year : ℤ) (d : Draws) :
    (makePerf district month year d).completed_works =
      pyInt ((d.total_works : ℚ) * d.completedFrac) := rfl

lemma makePerf_ongoing_works (district : DistrictRec) (month year : ℤ) (d : Draws) :
    (makePerf district month year d).ongoing_works =
      d.total_works - pyInt ((d.total_works : ℚ) * d.completedFrac) := rfl

lemma makePerf_total_job_cards (district : DistrictRec) (month year : ℤ) (d : Draws) :
    (makePerf district month year d).total_job_cards = d.total_job_cards := rfl

lemma makePerf_active_job_cards (district : DistrictRec) (month year : ℤ) (d : Draws) :
    (makePerf district month year d).active_job_cards =
      pyInt ((d.total_job_cards : ℚ) * d.activeFrac) := rfl

lemma init_states (draws : DistrictRec → ℕ → Draws) (s : Store) :
    (init_sample_data draws s).states = statesCatalog := by
  by_cases h : (districtsCatalog.map (fun d => districtPerfs d (draws d))).flatten = [] <;>
    simp [init_sample_data, List.isEmpty_iff, h]

lemma init_districts (draws : DistrictRec → ℕ → Draws) (s : Store) :
    (init_sample_data draws s).districts = districtsCatalog := by
  by_cases h : (districtsCatalog.map (fun d => districtPerfs d (draws d))).flatten = [] <;>
    simp [init_sample_data, List.isEmpty_iff, h]

lemma init_performances (draws : DistrictRec → ℕ → Draws) (s : Store) :
    (init_sample_data draws s).performances =
      (districtsCatalog.map (fun d => districtPerfs d (draws d))).flatten := by
  by_cases h : (districtsCatalog.map (fun d => districtPerfs d (draws d))).flatten = [] <;>
    simp [init_sample_data, List.isEmpty_iff, h]

lemma pyInt_eq_floor {q : ℚ} (h : 0 ≤ q) : pyInt q = ⌊q⌋ := if_pos h

lemma pyInt_le_int {n : ℤ} {q : ℚ} (h0 : 0 ≤ q) (h : q ≤ (n : ℚ)) : pyInt q ≤ n := by
  rw [pyInt_eq_floor h0]
  exact (Int.floor_le_floor h).trans_eq (Int.floor_intCast n)

lemma int_le_pyInt {n : ℤ} {q : ℚ} (h : (n : ℚ) ≤ q) (h0 : 0 ≤ q) : n ≤ pyInt q := by
  rw [pyInt_eq_floor h0]
  exact Int.le_floor.mpr h

/-- C2: for every district code and every limit, a successful
`listPerformance(districtCode, limit)` response holds at most `limit`
records, each with `district_code` equal to the argument, and the
endpoint's declared default limit is 12. -/
theorem listPerformance_limit_and_district (s : Store) (dc : String) (limit : ℕ)
    (l : List PerfRec) (h : (get_district_performance s dc limit).2 = Except.ok l) :
    l.length ≤ limit ∧ (∀ p ∈ l, p.district_code = dc) ∧ default_limit = 12 ∧
    (∀ s2 d2, get_district_performance_default s2 d2 = get_district_performance s2 d2 12) := by
  simp only [get_district_performance] at h
  split at h
  · simp at h
  · simp only [Except.ok.injEq] at h
    subst h
    refine ⟨by simp [List.length_take], ?_, rfl, fun s2 d2 => rfl⟩
    intro p hp
    have hp2 : p ∈ (s.performances.filter
        (fun p2 => p2.district_code == dc)).insertionSort byMonthDesc :=
      List.take_subset _ _ hp
    have hp3 : p ∈ s.performances.filter (fun p2 => p2.district_code == dc) :=
      (List.perm_insertionSort byMonthDesc _).subset hp2
    exact beq_iff_eq.mp (List.mem_filter.mp hp3).2

/-- A concrete stored performance record used to instantiate the
endpoint theorems. -/
def pW : PerfRec :=
  { state_code := "UP", state_name := "Uttar Pradesh", district_code := "UP001",
    district_name := "Lucknow", month := 5, year := 2025, total_job_cards := 100,
    active_job_cards := 50, total_workers := 10, active_workers := 5,
    person_days_generated := 1000, average_days_per_household := 20,
    women_person_days := 400, sc_person_days := 200, st_person_days := 100,
    total_budget_allocated := 1000, total_expenditure := 900, wage_expenditure := 540,
    material_expenditure := 360, average_wage_per_day := 250, total_works := 10,
    completed_works := 7, ongoing_works := 3 }

/-- A small concrete store holding exactly one performance record. -/
def wStore : Store := { states := [], districts := [], performances := [pW] }

theorem listPerformance_limit_and_district_witness :
    [pW].length ≤ 2 ∧ pW.district_code = "UP001" :=
  ⟨(listPerformance_limit_and_district wStore "UP001" 2 [pW] rfl).1,
   (listPerformance_limit_and_district wStore "UP001" 2 [pW] rfl).2.1 pW (by simp)⟩

/-- All 28 state codes of the fixed catalog. -/
def stateCodes : List String :=
  ["AP", "AR", "AS", "BR", "CT", "GA", "GJ", "HR", "HP", "JH", "KA", "KL", "MP", "MH",
   "MN", "ML", "MZ", "NL", "OR", "PB", "RJ", "SK", "TN", "TG", "TR", "UP", "UT", "WB"]

lemma district_state_code_mem : ∀ d ∈ districtsCatalog, d.state_code ∈ stateCodes := by decide

lemma catalog_filter_le_100 (sc : String) :
    (districtsCatalog.filter (fun d => d.state_code == sc)).length ≤ 100 := by
  by_cases h : sc ∈ stateCodes
  · unfold stateCodes at h
    fin_cases h <;> decide
  · have he : districtsCatalog.filter (fun d => d.state_code == sc) = [] := by
      rw [List.filter_eq_nil_iff]
      intro d hd hp
      exact h ((beq_iff_eq.mp hp) ▸ district_state_code_mem d hd)
    simp [he]

lemma perf_take_empty_iff (s : Store) (dc : String) (limit : ℕ) :
    ((s.performances.filter (fun p => p.district_code == dc)).insertionSort
        byMonthDesc).take limit = []
      ↔ (s.performances.filter (fun p => p.district_code == dc) = [] ∨ limit = 0) := by
  rw [List.take_eq_nil_iff]
  constructor
  · rintro (h | h)
    · exact Or.inr h
    · refine Or.inl ?_
      have hp := List.perm_insertionSort byMonthDesc
        (s.performances.filter (fun p => p.district_code == dc))
      rw [h] at hp
      exact hp.symm.eq_nil
  · rintro (h | h)
    · rw [h]
      exact Or.inr rfl
    · exact Or.inl h

/-- C4: `listDistricts` fails with the not-found error exactly when no
stored district carries the requested state code, and otherwise returns
those districts (exactly them whenever at most 100 match — the
`to_list(100)` client cap — which holds on every seeded store);
`listPerformance` fails with its not-found error exactly when the
limit-truncated result is empty, and otherwise returns a non-empty list.
Unknown codes and known-but-dataless codes take the same error path. -/
theorem notFound_iff_empty_result (s : Store) (sc dc : String) (limit : ℕ) :
    ((get_districts s sc).2 = Except.error "No districts found for this state" ↔
      s.districts.filter (fun d => d.state_code == sc) = []) ∧
    (∀ l, (get_districts s sc).2 = Except.ok l →
      l ≠ [] ∧ ((s.districts.filter (fun d => d.state_code == sc)).length ≤ 100 →
        l = s.districts.filter (fun d => d.state_code == sc))) ∧
    ((get_district_performance s dc limit).2 = Except.error "No performance data found" ↔
      (s.performances.filter (fun p => p.district_code == dc) = [] ∨ limit = 0)) ∧
    (∀ l, (get_district_performance s dc limit).2 = Except.ok l → l ≠ []) ∧
    (∀ f s0 l, (get_districts (init_sample_data f s0) sc).2 = Except.ok l →
      l = (init_sample_data f s0).districts.filter (fun d => d.state_code == sc)) := by
  have hdist : ∀ l, (get_districts s sc).2 = Except.ok l →
      l ≠ [] ∧ ((s.districts.filter (fun d => d.state_code == sc)).length ≤ 100 →
        l = s.districts.filter (fun d => d.state_code == sc)) := by
    intro l h
    simp only [get_districts] at h
    split at h
    · simp at h
    · next hne =>
        simp only [Except.ok.injEq] at h
        subst h
        exact ⟨fun hnil => hne (by rw [hnil]; rfl),
               fun hle => List.take_of_length_le hle⟩
  refine ⟨?_, hdist, ?_, ?_, ?_⟩
  · simp only [get_districts]
    split
    · next he =>
        have hnil : s.districts.filter (fun d => d.state_code == sc) = [] := by
          rcases List.take_eq_nil_iff.mp (List.isEmpty_iff.mp he) with h100 | hnil2
          · exact absurd h100 (by decide)
          · exact hnil2
        exact ⟨fun _ => hnil, fun _ => rfl⟩
    · next hne =>
        exact ⟨fun hcontra => Except.noConfusion hcontra,
               fun hnil => (hne (by rw [hnil]; rfl)).elim⟩
  · simp only [get_district_performance]
    split
    · next he =>
        exact ⟨fun _ => (perf_take_empty_iff s dc limit).mp (List.isEmpty_iff.mp he),
               fun _ => rfl⟩
    · next hne =>
        exact ⟨fun hcontra => Except.noConfusion hcontra,
               fun hempty =>
                 (hne (by rw [(perf_take_empty_iff s dc limit).mpr hempty]; rfl)).elim⟩
  · intro l h
    simp only [get_district_performance] at h
    split at h
    · simp at h
    · next hne =>
        simp only [Except.ok.injEq] at h
        subst h
        exact fun hnil => hne (by rw [hnil]; rfl)
  · intro f s0 l h
    simp only [get_districts] at h
    split at h
    · simp at h
    · simp only [Except.ok.injEq] at h
      subst h
      rw [init_districts]
      exact List.take_of_length_le (catalog_filter_le_100 sc)

theorem notFound_iff_empty_result_witness :
    (get_districts emptyStore "ZZ").2 = Except.error "No districts found for this state" ∧
    [pW] ≠ [] :=
  ⟨(notFound_iff_empty_result emptyStore "ZZ" "x" 1).1.mpr rfl,
   (notFound_iff_empty_result wStore "ZZ" "UP001" 2).2.2.2.1 [pW] rfl⟩

/-- C9: the district and performance queries are pure reads: on every
store they return the store unchanged (no write, in particular no
seeding), and on a completely empty store both return their not-found
error instead of populating anything. -/
theorem reads_leave_store_unchanged (s : Store) (sc dc : String) (limit : ℕ) :
    (get_districts s sc).1 = s ∧ (get_district_performance s dc limit).1 = s ∧
    (get_districts emptyStore sc).2 = Except.error "No districts found for this state" ∧
    (get_district_performance emptyStore dc limit).2 =
      Except.error "No performance data found" := by
  refine ⟨?_, ?_, rfl, ?_⟩
  · simp only [get_districts]
    split <;> rfl
  · simp only [get_district_performance]
    split <;> rfl
  · simp [get_district_performance, emptyStore]

/-- C3: when the states collection is empty, `listStates` runs the seeder's
full population routine and re-reads: it returns the whole 28-state catalog
and leaves a store on which `listDistricts "UP"` succeeds with a non-empty
list; when states are already present, it returns the stored states (capped
at 100 by `to_list(100)`) with the store untouched and without seeding. -/
theorem listStates_seeds_when_empty (draws : DistrictRec → ℕ → Draws) (s : Store) :
    (s.states = [] →
      (get_states draws s).1 = init_sample_data draws s ∧
      (get_states draws s).2 = statesCatalog ∧
      statesCatalog.length = 28 ∧
      (∃ l, (get_districts (get_states draws s).1 "UP").2 = Except.ok l ∧ l ≠ [])) ∧
    (s.states ≠ [] → get_states draws s = (s, s.states.take 100)) := by
  constructor
  · intro h
    have hs1 : (get_states draws s).1 = init_sample_data draws s := by
      simp [get_states, h]
    have hs2 : (get_states draws s).2 = statesCatalog.take 100 := by
      simp [get_states, h, init_states]
    refine ⟨hs1, ?_, by decide, ?_⟩
    · rw [hs2]
      decide
    · refine ⟨districtsCatalog.filter (fun d => d.state_code == "UP"), ?_, by decide⟩
      rw [hs1]
      simp only [get_districts, init_districts]
      rw [List.take_of_length_le (catalog_filter_le_100 "UP")]
      split
      · next he => exact absurd (List.isEmpty_iff.mp he) (by decide)
      · rfl
  · intro h
    have hne : (s.states.take 100).isEmpty = false := by
      cases hs : s.states
      · exact absurd hs h
      · rfl
    simp [get_states, hne]

theorem listStates_seeds_when_empty_witness :
    (get_states cdraws emptyStore).2 = statesCatalog ∧ statesCatalog.length = 28 :=
  ⟨((listStates_seeds_when_empty cdraws emptyStore).1 rfl).2.1,
   ((listStates_seeds_when_empty cdraws emptyStore).1 rfl).2.2.1⟩

/-- C5: for every district and every draw outcome, the seeder's inner loop
produces exactly 12 records whose `(year, month)` pairs are precisely the
12 consecutive calendar months ending at the fixed anchor `(2025, 10)` —
months 10..1 of 2025 followed by months 12 and 11 of 2024 — with no pair
repeated and every month within 1..12; the pairs are computed by the rule
`month = anchorMonth - offset; if month ≤ 0 then month += 12; year -= 1`
embodied in `monthYear`. -/
theorem seeder_months_exact (district : DistrictRec) (dr : ℕ → Draws) :
    (districtPerfs district dr).length = 12 ∧
    (districtPerfs district dr).map (fun p => (p.year, p.month)) =
      (List.range 12).map (fun off => ((monthYear 2025 10 off).2, (monthYear 2025 10 off).1)) ∧
    (districtPerfs district dr).map (fun p => (p.year, p.month)) =
      [(2025, 10), (2025, 9), (2025, 8), (2025, 7), (2025, 6), (2025, 5), (2025, 4),
       (2025, 3), (2025, 2), (2025, 1), (2024, 12), (2024, 11)] ∧
    ((districtPerfs district dr).map (fun p => (p.year, p.month))).Nodup ∧
    (∀ ym ∈ (districtPerfs district dr).map (fun p => (p.year, p.month)),
      1 ≤ ym.2 ∧ ym.2 ≤ 12) := by
  have hmap : (districtPerfs district dr).map (fun p => (p.year, p.month)) =
      [(2025, 10), (2025, 9), (2025, 8), (2025, 7), (2025, 6), (2025, 5), (2025, 4),
       (2025, 3), (2025, 2), (2025, 1), (2024, 12), (2024, 11)] := rfl
  refine ⟨rfl, rfl, hmap, ?_, ?_⟩
  · rw [hmap]
    decide
  · rw [hmap]
    decide

theorem seeder_months_exact_witness :
    (districtPerfs ap001 (cdraws ap001)).map (fun p => (p.year, p.month)) =
      [(2025, 10), (2025, 9), (2025, 8), (2025, 7), (2025, 6), (2025, 5), (2025, 4),
       (2025, 3), (2025, 2), (2025, 1), (2024, 12), (2024, 11)] :=
  (seeder_months_exact ap001 (cdraws ap001)).2.2.1

lemma makePerf_invariants (district : DistrictRec) (month year : ℤ) (d : Draws)
    (hd : d.Valid) :
    (makePerf district month year d).completed_works +
        (makePerf district month year d).ongoing_works =
      (makePerf district month year d).total_works ∧
    (makePerf district month year d).completed_works ≤
      (makePerf district month year d).total_works ∧
    (makePerf district month year d).active_job_cards ≤
      (makePerf district month year d).total_job_cards := by
  obtain ⟨htjc0, htjc1, haf0, haf1, _, _, _, _, _, _, _, _, _, _,
    htw0, htw1, hcf0, hcf1, _⟩ := hd
  have htwQ : (0:ℚ) ≤ (d.total_works : ℚ) := by
    have h2 : (0:ℤ) ≤ d.total_works := le_trans (by norm_num) htw0
    exact_mod_cast h2
  have htjcQ : (0:ℚ) ≤ (d.total_job_cards : ℚ) := by
    have h2 : (0:ℤ) ≤ d.total_job_cards := le_trans (by norm_num) htjc0
    exact_mod_cast h2
  refine ⟨?_, ?_, ?_⟩
  · rw [makePerf_completed_works, makePerf_ongoing_works, makePerf_total_works]
    ring
  · rw [makePerf_completed_works, makePerf_total_works]
    refine pyInt_le_int (mul_nonneg htwQ (le_trans (by norm_num) hcf0)) ?_
    exact mul_le_of_le_one_right htwQ (le_trans hcf1 (by norm_num))
  · rw [makePerf_active_job_cards, makePerf_total_job_cards]
    refine pyInt_le_int (mul_nonneg htjcQ (le_trans (by norm_num) haf0)) ?_
    exact mul_le_of_le_one_right htjcQ (le_trans haf1 (by norm_num))

/-- C6: every performance record produced by the seeder satisfies, for
every in-range outcome of the bounded-random sampling,
`completed_works + ongoing_works = total_works`,
`completed_works ≤ total_works` and `active_job_cards ≤ total_job_cards`. -/
theorem seeder_record_invariants (draws : DistrictRec → ℕ → Draws)
    (hv : ∀ d i, (draws d i).Valid) (s : Store) (p : PerfRec)
    (hp : p ∈ (init_sample_data draws s).performances) :
    p.completed_works + p.ongoing_works = p.total_works ∧
    p.completed_works ≤ p.total_works ∧
    p.active_job_cards ≤ p.total_job_cards := by
  rw [init_performances] at hp
  obtain ⟨blk, hblk, hpblk⟩ := List.mem_flatten.mp hp
  obtain ⟨dist, hdist2, rfl⟩ := List.mem_map.mp hblk
  unfold districtPerfs at hpblk
  obtain ⟨off, hoff, rfl⟩ := List.mem_map.mp hpblk
  exact makePerf_invariants dist _ _ (draws dist off) (hv dist off)

lemma makePerf_ap001_mem :
    makePerf ap001 10 2025 d0 ∈ (init_sample_data cdraws emptyStore).performances := by
  rw [init_performances]
  have hblock : districtPerfs ap001 (cdraws ap001) ∈
      districtsCatalog.map (fun d => districtPerfs d (cdraws d)) :=
    List.mem_map_of_mem _ (by decide)
  have helem := List.mem_map_of_mem (fun month_offset : ℕ =>
      let my := monthYear 2025 10 month_offset
      makePerf ap001 my.1 my.2 (cdraws ap001 month_offset))
    (by decide : (0:ℕ) ∈ List.range 12)
  exact List.mem_flatten_of_mem hblock helem

theorem seeder_record_invariants_witness :
    (makePerf ap001 10 2025 d0).completed_works +
        (makePerf ap001 10 2025 d0).ongoing_works =
      (makePerf ap001 10 2025 d0).total_works ∧
    (makePerf ap001 10 2025 d0).completed_works ≤ (makePerf ap001 10 2025 d0).total_works ∧
    (makePerf ap001 10 2025 d0).active_job_cards ≤
      (makePerf ap001 10 2025 d0).total_job_cards :=
  seeder_record_invariants cdraws (fun _ _ => show d0.Valid by with_unfolding_all decide)
    emptyStore (makePerf ap001 10 2025 d0) makePerf_ap001_mem

/-- C10: the division computing `average_days_per_household` never divides
by zero: for every in-range draw outcome, the stored `active_job_cards` is
exactly `int(total_job_cards * activeFrac)`, is at least
`int(20000 * 0.6) = 12000`, and in particular is positive. -/
theorem active_job_cards_positive (district : DistrictRec) (month year : ℤ) (d : Draws)
    (hd : d.Valid) :
    (makePerf district month year d).active_job_cards =
      pyInt ((d.total_job_cards : ℚ) * d.activeFrac) ∧
    12000 ≤ (makePerf district month year d).active_job_cards ∧
    0 < (makePerf district month year d).active_job_cards := by
  obtain ⟨htjc0, htjc1, haf0, haf1, _⟩ := hd
  have htjcQ : (20000:ℚ) ≤ (d.total_job_cards : ℚ) := by exact_mod_cast htjc0
  have hq : (12000:ℚ) ≤ (d.total_job_cards : ℚ) * d.activeFrac := by
    have h2 : (20000:ℚ) * 0.6 ≤ (d.total_job_cards : ℚ) * d.activeFrac :=
      mul_le_mul htjcQ haf0 (by norm_num) (le_trans (by norm_num) htjcQ)
    have h3 : (20000:ℚ) * 0.6 = 12000 := by norm_num
    linarith
  have h0 : (0:ℚ) ≤ (d.total_job_cards : ℚ) * d.activeFrac := le_trans (by norm_num) hq
  have hge : (12000:ℤ) ≤ pyInt ((d.total_job_cards : ℚ) * d.activeFrac) :=
    int_le_pyInt (by exact_mod_cast hq) h0
  rw [makePerf_active_job_cards]
  exact ⟨rfl, hge, lt_of_lt_of_le (by norm_num) hge⟩

theorem active_job_cards_positive_witness :
    (makePerf ap001 10 2025 d0).active_job_cards =
      pyInt ((d0.total_job_cards : ℚ) * d0.activeFrac) ∧
    12000 ≤ (makePerf ap001 10 2025 d0).active_job_cards ∧
    0 < (makePerf ap001 10 2025 d0).active_job_cards :=
  active_job_cards_positive ap001 10 2025 d0 (by with_unfolding_all decide)

/-- C7: for every language code the translation lookup returns one entry
per key of the static table (same key sequence), each value being the text
for that language when the entry defines one and the English text
otherwise; the operation is total, and for a code defined in no entry the
result is exactly the all-English table. -/
theorem translations_fallback (language : String) :
    (get_language_translations language).map Prod.fst = TRANSLATIONS.map Prod.fst ∧
    (∀ kv ∈ TRANSLATIONS,
      (kv.1, (dictGet kv.2 language).getD (englishText kv.2)) ∈
        get_language_translations language) ∧
    ((∀ kv ∈ TRANSLATIONS, dictGet kv.2 language = none) →
      get_language_translations language =
        TRANSLATIONS.map (fun kv => (kv.1, englishText kv.2))) := by
  refine ⟨rfl, ?_, ?_⟩
  · intro kv hkv
    exact List.mem_map_of_mem _ hkv
  · intro h
    unfold get_language_translations
    apply List.map_congr_left
    intro kv hkv
    rw [h kv hkv]
    rfl

theorem translations_fallback_witness :
    get_language_translations "xx" = TRANSLATIONS.map (fun kv => (kv.1, englishText kv.2)) :=
  (translations_fallback "xx").2.2 (by decide)

lemma countP_districtPerfs (district : DistrictRec) (f : ℕ → Draws) (c : String) :
    (districtPerfs district f).countP (fun p => p.district_code == c) =
      if district.district_code == c then 12 else 0 := by
  have hcongr : (districtPerfs district f).countP (fun p => p.district_code == c) =
      (districtPerfs district f).countP (fun _ => district.district_code == c) :=
    List.countP_congr (by
      intro p hp
      unfold districtPerfs at hp
      obtain ⟨off, hoff, rfl⟩ := List.mem_map.mp hp
      exact Iff.rfl)
  rw [hcongr]
  cases h : district.district_code == c
  all_goals simp [h, districtPerfs]

lemma countP_seed_blocks (l : List DistrictRec) (f : DistrictRec → ℕ → Draws) (c : String) :
    ((l.map (fun d => districtPerfs d (f d))).flatten.countP
        (fun p => p.district_code == c)) =
      12 * ((l.map (fun d => d.district_code)).count c) := by
  induction l with
  | nil => simp
  | cons d t ih =>
      simp only [List.map_cons, List.flatten_cons, List.countP_append, ih,
        countP_districtPerfs, List.count_cons]
      cases h : d.district_code == c
      all_goals simp [h]
      all_goals omega

/-- C8: running the seeding routine twice in sequence (from any starting
store) leaves the same store as running it once — the clear-before-insert
step erases the first run — and that store holds exactly one 12-month
record set per catalog district: precisely 12 performance records carry
each catalog district code. -/
theorem reseed_single_record_set (f1 f2 : DistrictRec → ℕ → Draws) (s : Store) :
    init_sample_data f2 (init_sample_data f1 s) = init_sample_data f2 s ∧
    (∀ dist ∈ districtsCatalog,
      ((init_sample_data f2 (init_sample_data f1 s)).performances.countP
        (fun p => p.district_code == dist.district_code)) = 12) := by
  constructor
  · rfl
  · intro dist hdist
    rw [init_performances, countP_seed_blocks]
    have h1 : (districtsCatalog.map (fun d => d.district_code)).count dist.district_code = 1 :=
      List.count_eq_one_of_mem (by decide) (List.mem_map_of_mem _ hdist)
    simp [h1]

theorem reseed_single_record_set_witness :
    init_sample_data cdraws (init_sample_data cdraws emptyStore) =
      init_sample_data cdraws emptyStore ∧
    ((init_sample_data cdraws (init_sample_data cdraws emptyStore)).performances.countP
      (fun p => p.district_code == "AP001")) = 12 :=
  ⟨(reseed_single_record_set cdraws cdraws emptyStore).1,
   (reseed_single_record_set cdraws cdraws emptyStore).2 ap001 (by decide)⟩

/-- C1 is refuted by the code: PyMongo cursor `.sort` calls replace one
another rather than compose, so line 209 sorts by `month` descending only.
On the seeded store the response for district "AP001" with the default
limit 12 places the 2024 records (months 12 and 11) before the 2025
records — the exact `(year, month)` sequence below — which is not ordered
by `(year, month)` strictly descending. -/
theorem sort_bug_month_only :
    perfYM ((get_district_performance (init_sample_data cdraws emptyStore) "AP001" 12).2) =
      some [(2024, 12), (2024, 11), (2025, 10), (2025, 9), (2025, 8), (2025, 7), (2025, 6),
        (2025, 5), (2025, 4), (2025, 3), (2025, 2), (2025, 1)] ∧
    ¬ ymDesc [(2024, 12), (2024, 11), (2025, 10), (2025, 9), (2025, 8), (2025, 7), (2025, 6),
        (2025, 5), (2025, 4), (2025, 3), (2025, 2), (2025, 1)] := by
  exact ⟨by decide, by decide⟩
